import Mathlib

/-!
Shallow embedding of `src/main.py` (`SAPODataOperator`).

The operator downloads data from an SAP OData service, either by calling a
named function or by navigating an entity set, and returns the rows.  The
external collaborators (the airflow `HttpHook`, the `requests` session, the
`pyodata` client and its schema) are modelled by a `Backend` record whose
operations either succeed with data or fail with an error message, exactly at
the points where the Python code can raise.  Python truthiness, the
`isinstance` checks, the mutation of `self.http_hook` and `self.property`
inside `execute`, and the step-label threading of the `try/except` wrapper are
all reproduced from the source.
-/

/-- A scalar Python value as it appears in parameters and result rows. -/
inductive PyVal where
  | vStr (s : String)
  | vInt (n : Int)
  deriving DecidableEq, Repr

/-- Python truthiness of a scalar value. -/
def PyVal.truthy : PyVal → Bool
  | .vStr s => !(s == "")
  | .vInt n => !(n == 0)

/-- Truthiness of an optional string (`None` and `""` are falsy). -/
def truthyOpt : Option String → Bool
  | none => false
  | some s => !(s == "")

/-- Truthiness of the optional `function` argument, which may hold any value. -/
def truthyPy : Option PyVal → Bool
  | none => false
  | some v => v.truthy

/-- `self.function is not None and isinstance(self.function, str)` (line 91). -/
def isFnString : Option PyVal → Bool
  | some (.vStr _) => true
  | _ => false

/-- The `parameters` argument: either a Python dict or some non-mapping
value (modelled by a list, as in the spec's example of an invalid value). -/
inductive Params where
  | pdict (kvs : List (String × PyVal))
  | plist (vs : List PyVal)
  deriving DecidableEq, Repr

/-- `isinstance(self.parameters, dict)` (line 66). -/
def Params.isDict : Params → Bool
  | .pdict _ => true
  | .plist _ => false

/-- Python truthiness of the parameters object (line 98 `if self.parameters:`). -/
def Params.truthy : Params → Bool
  | .pdict kvs => !kvs.isEmpty
  | .plist vs => !vs.isEmpty

/-- The object held in `self.http_hook`: a genuine `HttpHook` (carrying the
connection id it was built from, `none` for a hook supplied ready-made), or a
wrong-typed object that fails the `isinstance(self.http_hook, HttpHook)`
check, split by its Python truthiness. -/
inductive HookObj where
  | httpHook (connId : Option String)
  | otherTruthy (tag : String)
  | otherFalsy (tag : String)
  deriving DecidableEq, Repr

/-- Truthiness of `self.http_hook` (`HttpHook` instances are always truthy). -/
def hookTruthy : Option HookObj → Bool
  | none => false
  | some (.otherFalsy _) => false
  | some _ => true

/-- `isinstance(self.http_hook, HttpHook)` (line 75). -/
def hookIsHttpHook : Option HookObj → Bool
  | some (.httpHook _) => true
  | _ => false

/-- The operator's instance state after `__init__` assigns its fields. -/
structure SAPODataOperator where
  http_hook : Option HookObj
  http_conn_id : Option String
  service_url : Option String
  function : Option PyVal
  entity : Option String
  property : Option String
  parameters : Params
  deriving DecidableEq, Repr

/-- The kind of exception `__init__` raises.  The `raise TypeError(...)` on
line 67 never produces a `TypeError`: its message f-string contains the
replacement field `{parameter: value}`, whose expression `parameter` is an
undefined name, so evaluating the message raises a `NameError` before the
`TypeError` is ever constructed. -/
inductive InitError where
  | airflowError (msg : String)
  | nameError (msg : String)
  deriving DecidableEq, Repr

/-- Message of the line 63 `AirflowException`. -/
def msgSelectorMissing : String := "Either `function` or `entity` needs to be provided."

/-- Message of the line 65 `AirflowException`. -/
def msgUrlMissing : String := "`service_url` needs to be provided."

/-- The error actually escaping line 67: the f-string field
`{parameter: value}` (expression `parameter`, format spec ` value`) is
evaluated while building the `TypeError` message and hits an undefined
name, so the `NameError` escapes in place of the intended `TypeError`. -/
def msgParamsNameError : String := "NameError: name parameter is not defined"

/-- `SAPODataOperator.__init__` (lines 43-67): assigns the fields, then
validates.  The first check (line 62) tests `self.property` and
`self.function`; the second (line 64) tests `self.service_url`; the third
(line 66) tests `isinstance(self.parameters, dict)` — but when it fires, the
message built on line 67 raises a `NameError` (see `msgParamsNameError`),
which is the exception that escapes. -/
def init (http_hook : Option HookObj) (http_conn_id : Option String)
    (service_url : Option String) (function : Option PyVal)
    (entity : Option String) (property : Option String)
    (parameters : Params) : Except InitError SAPODataOperator :=
  if !truthyOpt property && !truthyPy function then
    .error (.airflowError msgSelectorMissing)
  else if !truthyOpt service_url then
    .error (.airflowError msgUrlMissing)
  else if !parameters.isDict then
    .error (.nameError msgParamsNameError)
  else
    .ok ⟨http_hook, http_conn_id, service_url, function, entity, property, parameters⟩

/-- One returned record / raw entity: attribute name to value. -/
abbrev Row := List (String × PyVal)

/-- One entry of `client.schema.entity_sets`: the set's name and the names
returned by `entity_type.proprties()` (spelling from the source). -/
structure SchemaEntitySet where
  name : String
  proprties : List String
  deriving DecidableEq, Repr

/-- The external collaborators, with an error outcome wherever the Python
call can raise.  `runFunction` receives the function name together with every
parameter pair that was bound on the request; `runEntityRequest` receives the
entity-set name, the key-predicate parameters and the navigation property. -/
structure Backend where
  parseUrlOk : Except String Unit
  getConn : Option String → Except String Unit
  mkClient : Except String Unit
  lookupFunction : String → Except String Unit
  bindParam : String → String → PyVal → Except String Unit
  runFunction : String → List (String × PyVal) → Except String (List (String × List Row))
  buildEntityRequest : String → List (String × PyVal) → String → Except String Unit
  runEntityRequest : String → List (String × PyVal) → String → Except String (List Row)
  schemaEntitySets : Except String (List SchemaEntitySet)

/-- Python `str(None)` versus a set step message, as interpolated into the
`AirflowException` f-string on line 138. -/
def stepStr : Option String → String
  | none => "None"
  | some s => s

/-- The step label set on line 82. -/
def stepHttpSession : String := "creating http session"

/-- The step label set on lines 102 and 119 (spelling from the source). -/
def stepSending : String := "sending request and recieving data"

/-- The step label set on line 123 (spelling from the source). -/
def stepHeaders : String := "recieving headers"

/-- The step label set on lines 106 and 130. -/
def stepDataFrame : String := "creating result pandas DataFrame"

/-- The step label set on line 95, for function name `f`. -/
def stepPrepFunction (f : String) : String :=
  "preparing data request for function " ++ f

/-- The step label set on line 114, for entity-set name `e`. -/
def stepPrepEntity (e : String) : String :=
  "preparing data request for entity set " ++ e

/-- The message of the single wrapped `AirflowException` raised on line 138:
`Error while step "<step>", error: <original>`. -/
def wrapMsg (step : Option String) (e : String) : String :=
  ("Error while step \"" ++ stepStr step ++ "\", error: ") ++ e

/-- The argument of the inner `AirflowException` raised on line 83. -/
def noTransportMsg : String :=
  "Cannot operate without `http_hook` or `http_conn_id`."

/-- The error a wrong-typed truthy `http_hook` object produces when line 86
assigns `base_url` on it (no such attribute can be set on it). -/
def msgBaseUrlAttr : String := "AttributeError: object has no attribute base_url"

/-- Lines 74-80: when `self.http_conn_id` is truthy and `self.http_hook` is
not a (truthy) `HttpHook` instance, `self.http_hook` is replaced by
`HttpHook(http_conn_id=self.http_conn_id)`. -/
def resolveHook (op : SAPODataOperator) : SAPODataOperator :=
  if truthyOpt op.http_conn_id then
    if hookTruthy op.http_hook && hookIsHttpHook op.http_hook then op
    else { op with http_hook := some (.httpHook op.http_conn_id) }
  else op

/-- `{k: v}[key]` lookup after the dict comprehension on lines 125-128: a
later entry with the same name overwrites an earlier one. -/
def lookupES (ess : List SchemaEntitySet) (n : String) : Option SchemaEntitySet :=
  ess.foldl (fun acc es => if es.name == n then some es else acc) none

/-- `request['results']` on line 108 (first binding of the key wins, as in a
well-formed response dict). -/
def lookupKey (resp : List (String × List Row)) (k : String) : Option (List Row) :=
  resp.lookup k

/-- Binding loop of lines 98-100: `request = request.parameter(name, value)`
for every pair, stopping at the first raise. -/
def bindAll (b : Backend) (f : String) : List (String × PyVal) → Except String Unit
  | [] => .ok ()
  | (n, v) :: rest =>
    match b.bindParam f n v with
    | .error e => .error e
    | .ok _ => bindAll b f rest

/-- `d.__getattr__(col.name)` on line 133: missing attribute raises. -/
def getattrVal (d : Row) (c : String) : Except String PyVal :=
  match d.lookup c with
  | some v => .ok v
  | none => .error ("AttributeError: " ++ c)

/-- One row of the comprehension on lines 132-135: only the declared schema
columns are extracted, in schema order. -/
def buildRow (cols : List String) (d : Row) : Except String Row :=
  match cols with
  | [] => .ok []
  | c :: cs =>
    match getattrVal d c with
    | .error e => .error e
    | .ok v =>
      match buildRow cs d with
      | .error e => .error e
      | .ok r => .ok ((c, v) :: r)

/-- All rows of the `from_records` comprehension on lines 132-135. -/
def buildRows (cols : List String) : List Row → Except String (List Row)
  | [] => .ok []
  | d :: ds =>
    match buildRow cols d with
    | .error e => .error e
    | .ok r =>
      match buildRows cols ds with
      | .error e => .error e
      | .ok rs => .ok (r :: rs)

/-- Lines 98-100 as a whole: the pairs bound on the pending request.  A
non-dict `parameters`: an empty one is falsy so the binding loop is skipped,
a non-empty one raises on `.items()`. -/
def bindParams (b : Backend) (fname : String) (ps : Params) :
    Except String (List (String × PyVal)) :=
  if ps.truthy then
    match ps with
    | .pdict kvs =>
      match bindAll b fname kvs with
      | .error e => .error e
      | .ok _ => .ok kvs
    | .plist _ => .error ("AttributeError: list object has no attribute items")
  else .ok []

/-- The function branch, lines 95-108, with the step label current at each
possible raise. -/
def execFunction (b : Backend) (fname : String) (ps : Params) :
    Except String (List Row) :=
  match b.lookupFunction fname with
  | .error e => .error (wrapMsg (some (stepPrepFunction fname)) e)
  | .ok _ =>
    match bindParams b fname ps with
    | .error e => .error (wrapMsg (some (stepPrepFunction fname)) e)
    | .ok kvs =>
      match b.runFunction fname kvs with
      | .error e => .error (wrapMsg (some stepSending) e)
      | .ok resp =>
        match lookupKey resp ("results") with
        | none => .error (wrapMsg (some stepDataFrame) ("KeyError: results"))
        | some rows => .ok rows

/-- The entity branch, lines 114-135, for entity-set name `ename` and
navigation property `pname` (already defaulted).  `get_entity(**params)`
raises a `TypeError` when `parameters` is not a mapping. -/
def execEntity (b : Backend) (ename pname : String) (ps : Params) :
    Except String (List Row) :=
  match ps with
  | .plist _ =>
    .error (wrapMsg (some (stepPrepEntity ename))
      ("TypeError: argument after ** must be a mapping"))
  | .pdict kvs =>
    match b.buildEntityRequest ename kvs pname with
    | .error e => .error (wrapMsg (some (stepPrepEntity ename)) e)
    | .ok _ =>
      match b.runEntityRequest ename kvs pname with
      | .error e => .error (wrapMsg (some stepSending) e)
      | .ok data =>
        match b.schemaEntitySets with
        | .error e => .error (wrapMsg (some stepHeaders) e)
        | .ok ess =>
          match lookupES ess pname with
          | none => .error (wrapMsg (some stepHeaders) ("KeyError: " ++ pname))
          | some es =>
            match buildRows es.proprties data with
            | .error e => .error (wrapMsg (some stepDataFrame) e)
            | .ok rows => .ok rows

/-- The value of `self.property` as used on lines 117 and 128, after the
line 110-112 defaulting: `entity` when `property` was falsy. -/
def pnameOf (op : SAPODataOperator) : String :=
  if truthyOpt op.property then op.property.getD ("") else op.entity.getD ("")

/-- The branch on the selector, lines 91-135, run on the state after hook
resolution; returns the result (`none` models Python returning the initial
`result = None` when neither branch fires) and the possibly mutated state
(line 112 writes `self.property`). -/
def runBranch (op : SAPODataOperator) (b : Backend) :
    Except String (Option (List Row)) × SAPODataOperator :=
  match op.function with
  | some (.vStr fname) =>
    (match execFunction b fname op.parameters with
     | .error m => .error m
     | .ok rows => .ok (some rows), op)
  | _ =>
    if truthyOpt op.entity then
      (match execEntity b (op.entity.getD ("")) (pnameOf op) op.parameters with
       | .error m => .error m
       | .ok rows => .ok (some rows),
       if truthyOpt op.property then op else { op with property := op.entity })
    else
      (.ok none, op)

/-- `execute` after hook resolution: the transport check of lines 81-86, the
base-url rewrite (`parse_url` may raise; assigning `base_url` on a
wrong-typed truthy hook object raises an `AttributeError`), `get_conn`
(line 88) and `pyodata.Client` (line 89), then the branch.  Every raise is
wrapped once by the handler of lines 137-138 with the step label current at
that moment (still `None` for all failures up to and including client
construction, except the explicit line 82 assignment). -/
def executeCore (op : SAPODataOperator) (b : Backend) :
    Except String (Option (List Row)) × SAPODataOperator :=
  if hookTruthy op.http_hook = false then
    (.error (wrapMsg (some stepHttpSession) noTransportMsg), op)
  else
    match b.parseUrlOk with
    | .error e => (.error (wrapMsg none e), op)
    | .ok _ =>
      match op.http_hook with
      | some (.httpHook cid) =>
        match b.getConn cid with
        | .error e => (.error (wrapMsg none e), op)
        | .ok _ =>
          match b.mkClient with
          | .error e => (.error (wrapMsg none e), op)
          | .ok _ => runBranch op b
      | _ =>
        (.error (wrapMsg none msgBaseUrlAttr), op)

/-- `SAPODataOperator.execute` (lines 69-140): resolve the hook, then run the
core.  The first component is Python's outcome (`Except.error m` models the
final `raise AirflowException(m)`, `Except.ok r` the `return result`); the
second is the instance state afterwards. -/
def execute (op : SAPODataOperator) (b : Backend) :
    Except String (Option (List Row)) × SAPODataOperator :=
  executeCore (resolveHook op) b

/-! ## Concrete fixtures for witnesses and counterexamples -/

/-- A service URL used by the concrete scenarios. -/
def urlSvc : String := "http://svc.example/odata/SVC"

/-- The function name of the spec's function-path example. -/
def fnGetOrders : String := "GetOrders"

/-- The entity-set name of the spec's entity-path example. -/
def entCustomers : String := "Customers"

/-- A property name used where a construction needs one. -/
def propOrders : String := "Orders"

/-- The two records of the spec's `GetOrders` example. -/
def ordersRows : List Row :=
  [[("id", PyVal.vInt 1), ("total", PyVal.vInt 100)],
   [("id", PyVal.vInt 2), ("total", PyVal.vInt 50)]]

/-- The two raw `Customers` entities of the spec's entity-path example, each
with the extra internal field `__metadata`. -/
def customersRaw : List Row :=
  [[("__metadata", PyVal.vStr ("m1")), ("name", PyVal.vStr ("Alice")),
    ("city", PyVal.vStr ("Rome"))],
   [("__metadata", PyVal.vStr ("m2")), ("name", PyVal.vStr ("Bob")),
    ("city", PyVal.vStr ("Pisa"))]]

/-- The entity-path example's expected table: the schema columns only, the
`__metadata` attribute stripped. -/
def customersTable : List Row :=
  [[("name", PyVal.vStr ("Alice")), ("city", PyVal.vStr ("Rome"))],
   [("name", PyVal.vStr ("Bob")), ("city", PyVal.vStr ("Pisa"))]]

/-- Operator of the spec's function-path example: a ready-made valid hook,
`GetOrders`, parameter year 2023. -/
def opOrders : SAPODataOperator :=
  ⟨some (HookObj.httpHook none), none, some urlSvc, some (PyVal.vStr fnGetOrders),
   none, none, Params.pdict [("year", PyVal.vInt 2023)]⟩

/-- Operator of the spec's entity-path example (`property` absent). -/
def opCustomers : SAPODataOperator :=
  ⟨some (HookObj.httpHook none), none, some urlSvc, none,
   some entCustomers, none, Params.pdict [("Id", PyVal.vStr ("C1"))]⟩

/-- An operator whose `function` holds a truthy non-string value and whose
`entity` is absent. -/
def opIntFunction : SAPODataOperator :=
  ⟨some (HookObj.httpHook none), none, some urlSvc, some (PyVal.vInt 9),
   none, none, Params.pdict []⟩

/-- Like `opIntFunction`, with a different non-string `function` value. -/
def opIntFn7 : SAPODataOperator :=
  ⟨some (HookObj.httpHook none), none, some urlSvc, some (PyVal.vInt 7),
   none, none, Params.pdict []⟩

/-- An operator holding a wrong-typed but truthy `http_hook` object and no
connection identifier. -/
def opBadHook : SAPODataOperator :=
  ⟨some (HookObj.otherTruthy ("not-a-hook")), none, some urlSvc,
   some (PyVal.vStr fnGetOrders), none, none, Params.pdict []⟩

/-- A stub backend on which every collaborator call succeeds, serving the
spec's two worked examples and empty data elsewhere. -/
def stubBackend : Backend where
  parseUrlOk := .ok ()
  getConn := fun _ => .ok ()
  mkClient := .ok ()
  lookupFunction := fun _ => .ok ()
  bindParam := fun _ _ _ => .ok ()
  runFunction := fun f kvs =>
    if f = fnGetOrders ∧ kvs = [("year", PyVal.vInt 2023)] then
      .ok [("results", ordersRows)]
    else .ok [("results", [])]
  buildEntityRequest := fun _ _ _ => .ok ()
  runEntityRequest := fun e _ p =>
    if e = entCustomers ∧ p = entCustomers then .ok customersRaw else .ok []
  schemaEntitySets := .ok [⟨entCustomers, ["name", "city"]⟩]

/-- The message of a failing session acquisition used below. -/
def connBoom : String := "connection refused by host"

/-- The stub backend with a session acquisition that raises. -/
def badConnBackend : Backend :=
  { stubBackend with getConn := fun _ => .error connBoom }

/-! ## Helper lemmas -/

theorem resolveHook_function (op : SAPODataOperator) :
    (resolveHook op).function = op.function := by
  unfold resolveHook
  split
  · split <;> rfl
  · rfl

theorem resolveHook_entity (op : SAPODataOperator) :
    (resolveHook op).entity = op.entity := by
  unfold resolveHook
  split
  · split <;> rfl
  · rfl

theorem resolveHook_property (op : SAPODataOperator) :
    (resolveHook op).property = op.property := by
  unfold resolveHook
  split
  · split <;> rfl
  · rfl

theorem resolveHook_parameters (op : SAPODataOperator) :
    (resolveHook op).parameters = op.parameters := by
  unfold resolveHook
  split
  · split <;> rfl
  · rfl

theorem pnameOf_resolveHook (op : SAPODataOperator) :
    pnameOf (resolveHook op) = pnameOf op := by
  unfold pnameOf
  rw [resolveHook_property, resolveHook_entity]

/-- When the resolved hook is a genuine `HttpHook` and the url parse, the
session acquisition and the client construction all succeed, `executeCore`
reaches the selector branch. -/
theorem executeCore_branch (op : SAPODataOperator) (b : Backend) (cid : Option String)
    (hhook : op.http_hook = some (HookObj.httpHook cid))
    (hp : b.parseUrlOk = Except.ok ())
    (hg : b.getConn cid = Except.ok ())
    (hc : b.mkClient = Except.ok ()) :
    executeCore op b = runBranch op b := by
  unfold executeCore
  rw [hhook]
  simp [hookTruthy, hp, hg, hc]

/-- The selector branch when `function` holds a string: the function path is
taken, whatever `entity` holds, and the state is unchanged. -/
theorem runBranch_function (op : SAPODataOperator) (b : Backend) (fname : String)
    (hf : op.function = some (PyVal.vStr fname)) :
    runBranch op b = ((execFunction b fname op.parameters).map some, op) := by
  unfold runBranch
  rw [hf]
  cases hE : execFunction b fname op.parameters <;> simp [Except.map, hE]

/-- The selector branch when `function` does not hold a string and `entity`
is truthy: the entity path is taken with the defaulted property, and the
state records the line 112 write when `property` was falsy. -/
theorem runBranch_entity (op : SAPODataOperator) (b : Backend)
    (hf : isFnString op.function = false)
    (he : truthyOpt op.entity = true) :
    runBranch op b =
      ((execEntity b (op.entity.getD ("")) (pnameOf op) op.parameters).map some,
       if truthyOpt op.property then op else { op with property := op.entity }) := by
  unfold runBranch
  cases hfn : op.function with
  | none =>
    cases hE : execEntity b (op.entity.getD ("")) (pnameOf op) op.parameters <;>
      simp [he, hE, Except.map]
  | some v =>
    cases v with
    | vStr s => rw [hfn] at hf; simp [isFnString] at hf
    | vInt n =>
      cases hE : execEntity b (op.entity.getD ("")) (pnameOf op) op.parameters <;>
        simp [he, hE, Except.map]

/-- The selector branch when `function` does not hold a string and `entity`
is falsy: no branch fires and Python's initial `result = None` is returned. -/
theorem runBranch_none (op : SAPODataOperator) (b : Backend)
    (hf : isFnString op.function = false)
    (he : truthyOpt op.entity = false) :
    runBranch op b = (Except.ok none, op) := by
  unfold runBranch
  cases hfn : op.function with
  | none => simp [he]
  | some v =>
    cases v with
    | vStr s => rw [hfn] at hf; simp [isFnString] at hf
    | vInt n => simp [he]

/-- When the binding loop raises nowhere, the request ends up carrying
exactly the pairs of the parameter dict. -/
theorem bindParams_pdict (b : Backend) (fname : String)
    (kvs : List (String × PyVal))
    (hbind : bindAll b fname kvs = Except.ok ()) :
    bindParams b fname (Params.pdict kvs) = Except.ok kvs := by
  unfold bindParams
  cases kvs with
  | nil => simp [Params.truthy]
  | cons a as => simp [Params.truthy, hbind]

/-- The function branch when every step succeeds: the bound parameters are
exactly the pairs of the parameter dict, and the output is the list under
the `results` key, verbatim. -/
theorem execFunction_ok (b : Backend) (fname : String)
    (kvs : List (String × PyVal)) (resp : List (String × List Row)) (rows : List Row)
    (hlk : b.lookupFunction fname = Except.ok ())
    (hbind : bindAll b fname kvs = Except.ok ())
    (hrun : b.runFunction fname kvs = Except.ok resp)
    (hres : lookupKey resp ("results") = some rows) :
    execFunction b fname (Params.pdict kvs) = Except.ok rows := by
  unfold execFunction
  rw [hlk, bindParams_pdict b fname kvs hbind]
  simp [hrun, hres]

theorem isFnString_exists (f : Option PyVal) (h : isFnString f = true) :
    ∃ s, f = some (PyVal.vStr s) := by
  cases f with
  | none => simp [isFnString] at h
  | some v =>
    cases v with
    | vStr s => exact ⟨s, rfl⟩
    | vInt n => simp [isFnString] at h

/-- Every raise inside the function branch surfaces as one wrapped message. -/
theorem execFunction_error (b : Backend) (fname : String) (ps : Params)
    (m : String) (h : execFunction b fname ps = Except.error m) :
    ∃ st e, m = wrapMsg st e := by
  unfold execFunction at h
  split at h
  · injection h with h; exact ⟨_, _, h.symm⟩
  · split at h
    · injection h with h; exact ⟨_, _, h.symm⟩
    · split at h
      · injection h with h; exact ⟨_, _, h.symm⟩
      · split at h
        · injection h with h; exact ⟨_, _, h.symm⟩
        · exact Except.noConfusion h

/-- Every raise inside the entity branch surfaces as one wrapped message. -/
theorem execEntity_error (b : Backend) (ename pname : String) (ps : Params)
    (m : String) (h : execEntity b ename pname ps = Except.error m) :
    ∃ st e, m = wrapMsg st e := by
  unfold execEntity at h
  split at h
  · injection h with h; exact ⟨_, _, h.symm⟩
  · split at h
    · injection h with h; exact ⟨_, _, h.symm⟩
    · split at h
      · injection h with h; exact ⟨_, _, h.symm⟩
      · split at h
        · injection h with h; exact ⟨_, _, h.symm⟩
        · split at h
          · injection h with h; exact ⟨_, _, h.symm⟩
          · split at h
            · injection h with h; exact ⟨_, _, h.symm⟩
            · exact Except.noConfusion h

/-- Every raise inside the selector branch surfaces as one wrapped message. -/
theorem runBranch_error (op : SAPODataOperator) (b : Backend) (m : String)
    (h : (runBranch op b).1 = Except.error m) : ∃ st e, m = wrapMsg st e := by
  by_cases hfs : isFnString op.function = true
  · obtain ⟨s, hs⟩ := isFnString_exists _ hfs
    rw [runBranch_function op b s hs] at h
    cases hE : execFunction b s op.parameters with
    | error e =>
      refine execFunction_error b s op.parameters m ?_
      rw [hE] at h
      simp [Except.map] at h
      rw [hE, h]
    | ok rows => rw [hE] at h; simp [Except.map] at h
  · rw [Bool.not_eq_true] at hfs
    by_cases he : truthyOpt op.entity = true
    · rw [runBranch_entity op b hfs he] at h
      cases hE : execEntity b (op.entity.getD ("")) (pnameOf op) op.parameters with
      | error e =>
        refine execEntity_error b (op.entity.getD ("")) (pnameOf op) op.parameters m ?_
        rw [hE] at h
        simp [Except.map] at h
        rw [hE, h]
      | ok rows => rw [hE] at h; simp [Except.map] at h
    · rw [Bool.not_eq_true] at he
      rw [runBranch_none op b hfs he] at h
      exact Except.noConfusion h

/-- `executeCore` either stops with a wrapped error and an unchanged state,
or reaches the selector branch. -/
theorem executeCore_cases (op : SAPODataOperator) (b : Backend) :
    (∃ st e, executeCore op b = (Except.error (wrapMsg st e), op)) ∨
    executeCore op b = runBranch op b := by
  unfold executeCore
  by_cases h1 : hookTruthy op.http_hook = false
  · exact Or.inl ⟨some stepHttpSession, noTransportMsg, by simp [h1]⟩
  · cases hP : b.parseUrlOk with
    | error e => exact Or.inl ⟨none, e, by simp [h1, hP]⟩
    | ok u =>
      cases u
      cases hH : op.http_hook with
      | none => rw [hH] at h1; simp [hookTruthy] at h1
      | some ho =>
        cases ho with
        | httpHook c =>
          cases hG : b.getConn c with
          | error e => exact Or.inl ⟨none, e, by simp [h1, hookTruthy, hP, hG]⟩
          | ok u2 =>
            cases u2
            cases hC : b.mkClient with
            | error e => exact Or.inl ⟨none, e, by simp [h1, hookTruthy, hP, hG, hC]⟩
            | ok u3 =>
              cases u3
              exact Or.inr (by simp [h1, hookTruthy, hP, hG, hC])
        | otherTruthy t => exact Or.inl ⟨none, msgBaseUrlAttr, by simp [h1, hookTruthy, hP]⟩
        | otherFalsy t => rw [hH] at h1; simp [hookTruthy] at h1

/-- The hook field after lines 74-80, as a function of the two transport
inputs alone. -/
def resolvedHook (hh : Option HookObj) (cid : Option String) : Option HookObj :=
  if truthyOpt cid then
    if hookTruthy hh && hookIsHttpHook hh then hh
    else some (.httpHook cid)
  else hh

theorem resolveHook_eq_mk (op : SAPODataOperator) :
    resolveHook op = { op with http_hook := resolvedHook op.http_hook op.http_conn_id } := by
  unfold resolveHook resolvedHook
  by_cases h1 : truthyOpt op.http_conn_id = true
  · by_cases h2 : (hookTruthy op.http_hook && hookIsHttpHook op.http_hook) = true
    · simp [h1, h2]
    · simp [h1, h2]
  · simp [h1]

theorem resolvedHook_idem (hh : Option HookObj) (cid : Option String) :
    resolvedHook (resolvedHook hh cid) cid = resolvedHook hh cid := by
  unfold resolvedHook
  by_cases h1 : truthyOpt cid = true
  · cases hh with
    | none => simp [h1, hookTruthy, hookIsHttpHook]
    | some ho => cases ho <;> simp [h1, hookTruthy, hookIsHttpHook]
  · simp [h1]

theorem resolveHook_idem (op : SAPODataOperator) :
    resolveHook (resolveHook op) = resolveHook op := by
  rw [resolveHook_eq_mk op, resolveHook_eq_mk]
  simp [resolvedHook_idem]

theorem resolveHook_update_property (op : SAPODataOperator) (p : Option String) :
    resolveHook { op with property := p } = { resolveHook op with property := p } := by
  rw [resolveHook_eq_mk, resolveHook_eq_mk]

/-- The state coming out of the selector branch: unchanged, except for the
line 112 write of `property` on an entity path that had to default it. -/
theorem runBranch_snd (op : SAPODataOperator) (b : Backend) :
    (runBranch op b).2 = op ∨
    ((runBranch op b).2 = { op with property := op.entity } ∧
      isFnString op.function = false ∧ truthyOpt op.entity = true ∧
      truthyOpt op.property = false) := by
  by_cases hfs : isFnString op.function = true
  · obtain ⟨s, hs⟩ := isFnString_exists _ hfs
    rw [runBranch_function op b s hs]
    exact Or.inl rfl
  · rw [Bool.not_eq_true] at hfs
    by_cases he : truthyOpt op.entity = true
    · rw [runBranch_entity op b hfs he]
      by_cases hpr : truthyOpt op.property = true
      · simp [hpr]
      · rw [Bool.not_eq_true] at hpr
        exact Or.inr ⟨by simp [hpr], hfs, he, hpr⟩
    · rw [Bool.not_eq_true] at he
      rw [runBranch_none op b hfs he]
      exact Or.inl rfl

/-- Rows built by the line 132-135 comprehension carry exactly the declared
schema columns as keys, in schema order. -/
theorem buildRow_keys (cols : List String) (d : Row) (r : Row)
    (h : buildRow cols d = Except.ok r) : r.map Prod.fst = cols := by
  induction cols generalizing r with
  | nil =>
    unfold buildRow at h
    injection h with h
    rw [← h]
    rfl
  | cons c cs ih =>
    unfold buildRow at h
    cases hv : getattrVal d c with
    | error e => rw [hv] at h; exact Except.noConfusion h
    | ok v =>
      rw [hv] at h
      cases hr : buildRow cs d with
      | error e => rw [hr] at h; exact Except.noConfusion h
      | ok r0 =>
        rw [hr] at h
        injection h with h
        rw [← h]
        simp [ih r0 hr]

theorem buildRows_keys (cols : List String) (ds : List Row) (rs : List Row)
    (h : buildRows cols ds = Except.ok rs) :
    ∀ r ∈ rs, r.map Prod.fst = cols := by
  induction ds generalizing rs with
  | nil =>
    unfold buildRows at h
    injection h with h
    rw [← h]
    intro r hr
    cases hr
  | cons d ds ih =>
    unfold buildRows at h
    cases h1 : buildRow cols d with
    | error e => rw [h1] at h; exact Except.noConfusion h
    | ok r0 =>
      rw [h1] at h
      cases h2 : buildRows cols ds with
      | error e => rw [h2] at h; exact Except.noConfusion h
      | ok rs0 =>
        rw [h2] at h
        injection h with h
        rw [← h]
        intro r hr
        rcases List.mem_cons.mp hr with hr | hr
        · rw [hr]; exact buildRow_keys cols d r0 h1
        · exact ih rs0 h2 r hr

/-- The entity branch when every step succeeds. -/
theorem execEntity_ok (b : Backend) (ename pname : String)
    (kvs : List (String × PyVal)) (data : List Row)
    (ess : List SchemaEntitySet) (es : SchemaEntitySet) (rows : List Row)
    (hbuild : b.buildEntityRequest ename kvs pname = Except.ok ())
    (hrun : b.runEntityRequest ename kvs pname = Except.ok data)
    (hschema : b.schemaEntitySets = Except.ok ess)
    (hes : lookupES ess pname = some es)
    (hrows : buildRows es.proprties data = Except.ok rows) :
    execEntity b ename pname (Params.pdict kvs) = Except.ok rows := by
  unfold execEntity
  simp [hbuild, hrun, hschema, hes, hrows]

/-- The outcome of the selector branch depends on the state only through the
selector fields, the parameters and the navigation-property value. -/
theorem runBranch_fst_congr (op1 op2 : SAPODataOperator) (b : Backend)
    (h2 : op1.function = op2.function)
    (h3 : op1.entity = op2.entity)
    (h4 : op1.parameters = op2.parameters)
    (h5 : pnameOf op1 = pnameOf op2) :
    (runBranch op1 b).1 = (runBranch op2 b).1 := by
  by_cases hfs : isFnString op1.function = true
  · obtain ⟨s, hs⟩ := isFnString_exists _ hfs
    rw [runBranch_function op1 b s hs, runBranch_function op2 b s (h2 ▸ hs)]
    rw [h4]
  · rw [Bool.not_eq_true] at hfs
    by_cases he : truthyOpt op1.entity = true
    · rw [runBranch_entity op1 b hfs he,
          runBranch_entity op2 b (h2 ▸ hfs) (h3 ▸ he)]
      rw [h3, h4, h5]
    · rw [Bool.not_eq_true] at he
      rw [runBranch_none op1 b hfs he,
          runBranch_none op2 b (h2 ▸ hfs) (h3 ▸ he)]

/-- The outcome of one execution depends on the state only through the hook,
the selector fields, the parameters and the navigation-property value. -/
theorem executeCore_fst_congr (op1 op2 : SAPODataOperator) (b : Backend)
    (h1 : op1.http_hook = op2.http_hook)
    (h2 : op1.function = op2.function)
    (h3 : op1.entity = op2.entity)
    (h4 : op1.parameters = op2.parameters)
    (h5 : pnameOf op1 = pnameOf op2) :
    (executeCore op1 b).1 = (executeCore op2 b).1 := by
  unfold executeCore
  rw [← h1]
  by_cases hh : hookTruthy op1.http_hook = false
  · simp [hh]
  · cases hP : b.parseUrlOk with
    | error e => simp [hh, hP]
    | ok u =>
      cases u
      cases hH : op1.http_hook with
      | none => rw [hH] at hh; simp [hookTruthy] at hh
      | some ho =>
        cases ho with
        | httpHook c =>
          cases hG : b.getConn c with
          | error e => simp [hh, hookTruthy, hP, hG]
          | ok u2 =>
            cases u2
            cases hC : b.mkClient with
            | error e => simp [hh, hookTruthy, hP, hG, hC]
            | ok u3 =>
              cases u3
              simp only [hh, hookTruthy, hP, hG, hC]
              simp [runBranch_fst_congr op1 op2 b h2 h3 h4 h5]
        | otherTruthy t => simp [hh, hookTruthy, hP]
        | otherFalsy t => rw [hH] at hh; simp [hookTruthy] at hh

/-! ## Claims -/

/-- C1: the spec says construction with both `function` and `entity` absent
always raises, and that a non-empty `entity` alone (no `function`, no
`property`) succeeds.  Line 62 of the code instead tests `self.property`:
entity-only construction raises the selector error, while a property-only
construction (both selectors absent) is accepted — contradicting the code's
own docstring and the text of the very exception it raises. -/
theorem c1_entity_only_raises_property_only_passes :
    init none none (some urlSvc) none (some entCustomers) none (Params.pdict []) =
      Except.error (InitError.airflowError msgSelectorMissing) ∧
    init none none (some urlSvc) none none (some propOrders) (Params.pdict []) =
      Except.ok ⟨none, none, some urlSvc, none, none, some propOrders, Params.pdict []⟩ := by
  constructor <;> rfl

/-- C7: the spec says a non-mapping `parameters` raises a
`TypeError`-equivalent; line 66's check does fire on such a value (the same
arguments with a dict construct fine), but the exception escaping line 67 is
a `NameError` — the message f-string evaluates the undefined name
`parameter` before the `TypeError` is built — so the claimed
`TypeError`-equivalent is never raised. -/
theorem c7_nonmapping_raises_name_error :
    init none none (some urlSvc) (some (PyVal.vStr fnGetOrders)) none none
      (Params.plist [PyVal.vInt 1]) =
      Except.error (InitError.nameError msgParamsNameError) ∧
    init none none (some urlSvc) (some (PyVal.vStr fnGetOrders)) none none
      (Params.pdict []) =
      Except.ok ⟨none, none, some urlSvc, some (PyVal.vStr fnGetOrders), none,
        none, Params.pdict []⟩ := by
  constructor <;> rfl

/-- Counterexample for C2: `__init__` accepts a truthy non-string `function`
with no `entity`, and `execute` then completes without raising and returns
Python's `None` instead of a Result Table. -/
theorem c2_counterexample_none_result :
    init (some (HookObj.httpHook none)) none (some urlSvc) (some (PyVal.vInt 9))
      none none (Params.pdict []) = Except.ok opIntFunction ∧
    (execute opIntFunction stubBackend).1 = Except.ok none := by
  constructor <;> rfl

/-- C2 as amended: whenever one of the two data paths is actually taken
(`function` holds a string, or `entity` is truthy), an execution that
completes without raising returns a Result Table, never `None`; an empty
backend result list yields an empty table by the generality of `rows`. -/
theorem c2_amended_table_when_path_taken (op : SAPODataOperator) (b : Backend)
    (r : Option (List Row))
    (hsel : isFnString op.function = true ∨ truthyOpt op.entity = true)
    (hok : (execute op b).1 = Except.ok r) :
    ∃ rows : List Row, r = some rows := by
  unfold execute at hok
  rcases executeCore_cases (resolveHook op) b with ⟨st, e, hcase⟩ | hcase
  · rw [hcase] at hok; exact Except.noConfusion hok
  · rw [hcase] at hok
    by_cases hfs : isFnString op.function = true
    · obtain ⟨s, hs⟩ := isFnString_exists _ hfs
      rw [runBranch_function (resolveHook op) b s
        ((resolveHook_function op).trans hs)] at hok
      cases hE : execFunction b s (resolveHook op).parameters with
      | error e => rw [hE] at hok; simp [Except.map] at hok
      | ok rows =>
        rw [hE] at hok
        simp [Except.map] at hok
        exact ⟨rows, hok.symm⟩
    · rw [Bool.not_eq_true] at hfs
      have he : truthyOpt op.entity = true := by
        rcases hsel with h | h
        · simp [h] at hfs
        · exact h
      have hfs' : isFnString (resolveHook op).function = false := by
        rw [resolveHook_function]; exact hfs
      have he' : truthyOpt (resolveHook op).entity = true := by
        rw [resolveHook_entity]; exact he
      rw [runBranch_entity (resolveHook op) b hfs' he'] at hok
      cases hE : execEntity b ((resolveHook op).entity.getD (""))
          (pnameOf (resolveHook op)) (resolveHook op).parameters with
      | error e => rw [hE] at hok; simp [Except.map] at hok
      | ok rows =>
        rw [hE] at hok
        simp [Except.map] at hok
        exact ⟨rows, hok.symm⟩

/-- Witness for the amended C2: the function-path example returns a table. -/
theorem c2_amended_table_when_path_taken_witness :
    ∃ rows : List Row, (some ordersRows : Option (List Row)) = some rows :=
  c2_amended_table_when_path_taken opOrders stubBackend (some ordersRows)
    (Or.inl rfl) rfl

/-- Counterexample for C3: a session-construction failure (the hook is a
valid `HttpHook`, its `get_conn` raises) is wrapped with the step label
`None` — the label `creating http session` appears nowhere in the surfaced
message, though the original error text is preserved. -/
theorem c3_counterexample_session_failure_label :
    (execute opOrders badConnBackend).1 = Except.error (wrapMsg none connBoom) ∧
    ¬ stepHttpSession.data <:+: (wrapMsg none connBoom).data ∧
    connBoom.data <:+: (wrapMsg none connBoom).data := by
  refine ⟨rfl, by decide, by decide⟩

/-- C3 as amended: every failure inside `execute` surfaces as exactly one
wrapped message built from the step label current at the raise (rendered
`None` when no label had been set, as for session or client construction
failures) followed by the original error text; the label
`creating http session` is the one used when no usable transport remains;
a `get_conn` failure on a valid hook is wrapped with label `None`. -/
theorem c3_amended_single_wrapped_error :
    (∀ (op : SAPODataOperator) (b : Backend) (m : String),
      (execute op b).1 = Except.error m → ∃ st e, m = wrapMsg st e) ∧
    (∀ (op : SAPODataOperator) (b : Backend),
      hookTruthy (resolveHook op).http_hook = false →
      (execute op b).1 = Except.error (wrapMsg (some stepHttpSession) noTransportMsg)) ∧
    (∀ (op : SAPODataOperator) (b : Backend) (c : Option String) (e : String),
      (resolveHook op).http_hook = some (HookObj.httpHook c) →
      b.parseUrlOk = Except.ok () →
      b.getConn c = Except.error e →
      (execute op b).1 = Except.error (wrapMsg none e)) := by
  refine ⟨?_, ?_, ?_⟩
  · intro op b m h
    unfold execute at h
    rcases executeCore_cases (resolveHook op) b with ⟨st, e, hcase⟩ | hcase
    · rw [hcase] at h
      injection h with h
      exact ⟨st, e, h.symm⟩
    · rw [hcase] at h
      exact runBranch_error (resolveHook op) b m h
  · intro op b hfalse
    unfold execute executeCore
    simp [hfalse]
  · intro op b c e hhook hp hg
    unfold execute executeCore
    rw [hhook]
    simp [hookTruthy, hp, hg]

/-- Witness for the amended C3: the concrete session failure is surfaced
with label `None` and the original text. -/
theorem c3_amended_single_wrapped_error_witness :
    (execute opOrders badConnBackend).1 = Except.error (wrapMsg none connBoom) :=
  c3_amended_single_wrapped_error.2.2 opOrders badConnBackend none connBoom
    rfl rfl rfl

/-- C4: on the entity path (non-string `function`, truthy `entity`), an
absent `property` defaults to the entity name, and every produced row
carries exactly the columns declared by the schema entity set named by the
(defaulted) property — extra raw attributes are never surfaced. -/
theorem c4_entity_path_schema_columns
    (op : SAPODataOperator) (b : Backend) (c : Option String) (ename : String)
    (kvs : List (String × PyVal)) (data : List Row)
    (ess : List SchemaEntitySet) (es : SchemaEntitySet) (rows : List Row)
    (hf : isFnString op.function = false)
    (hen : op.entity = some ename)
    (he : truthyOpt op.entity = true)
    (hps : op.parameters = Params.pdict kvs)
    (hhook : (resolveHook op).http_hook = some (HookObj.httpHook c))
    (hp : b.parseUrlOk = Except.ok ())
    (hg : b.getConn c = Except.ok ())
    (hc : b.mkClient = Except.ok ())
    (hbuild : b.buildEntityRequest ename kvs (pnameOf op) = Except.ok ())
    (hrun : b.runEntityRequest ename kvs (pnameOf op) = Except.ok data)
    (hschema : b.schemaEntitySets = Except.ok ess)
    (hes : lookupES ess (pnameOf op) = some es)
    (hrows : buildRows es.proprties data = Except.ok rows) :
    (truthyOpt op.property = false → pnameOf op = ename) ∧
    (execute op b).1 = Except.ok (some rows) ∧
    (∀ r ∈ rows, r.map Prod.fst = es.proprties) := by
  have he' : truthyOpt (resolveHook op).entity = true := by
    rw [resolveHook_entity]; exact he
  have hfs' : isFnString (resolveHook op).function = false := by
    rw [resolveHook_function]; exact hf
  refine ⟨?_, ?_, buildRows_keys es.proprties data rows hrows⟩
  · intro hpf
    unfold pnameOf
    simp [hpf, hen]
  · unfold execute
    rw [executeCore_branch _ b c hhook hp hg hc]
    rw [runBranch_entity _ b hfs' he']
    rw [resolveHook_entity, resolveHook_parameters, pnameOf_resolveHook, hen, hps]
    have : (some ename).getD ("") = ename := rfl
    rw [this, execEntity_ok b ename (pnameOf op) kvs data ess es rows
      hbuild hrun hschema hes hrows]
    rfl

/-- Witness for C4: the spec's `Customers` example — `property` absent
defaults to `Customers`, and `__metadata` is stripped from both rows. -/
theorem c4_entity_path_schema_columns_witness :
    (truthyOpt opCustomers.property = false → pnameOf opCustomers = entCustomers) ∧
    (execute opCustomers stubBackend).1 = Except.ok (some customersTable) ∧
    (∀ r ∈ customersTable, r.map Prod.fst =
      (SchemaEntitySet.mk entCustomers ["name", "city"]).proprties) :=
  c4_entity_path_schema_columns opCustomers stubBackend none entCustomers
    [("Id", PyVal.vStr ("C1"))] customersRaw
    [SchemaEntitySet.mk entCustomers ["name", "city"]]
    (SchemaEntitySet.mk entCustomers ["name", "city"]) customersTable
    rfl rfl rfl rfl rfl rfl rfl rfl rfl rfl rfl rfl rfl

/-- C5: on the function path, the executed request carries exactly the
key/value pairs of `parameters` as bound named parameters, and the Result
Table is the list under the response's `results` key, verbatim (empty list
included, by the generality of `rows`). -/
theorem c5_function_path_results_verbatim
    (op : SAPODataOperator) (b : Backend) (fname : String) (c : Option String)
    (kvs : List (String × PyVal)) (resp : List (String × List Row))
    (rows : List Row)
    (hf : op.function = some (PyVal.vStr fname))
    (hps : op.parameters = Params.pdict kvs)
    (hhook : (resolveHook op).http_hook = some (HookObj.httpHook c))
    (hp : b.parseUrlOk = Except.ok ())
    (hg : b.getConn c = Except.ok ())
    (hc : b.mkClient = Except.ok ())
    (hlk : b.lookupFunction fname = Except.ok ())
    (hbind : bindAll b fname kvs = Except.ok ())
    (hrun : b.runFunction fname kvs = Except.ok resp)
    (hres : lookupKey resp ("results") = some rows) :
    (execute op b).1 = Except.ok (some rows) := by
  unfold execute
  rw [executeCore_branch _ b c hhook hp hg hc]
  rw [runBranch_function _ b fname ((resolveHook_function op).trans hf)]
  rw [resolveHook_parameters, hps,
    execFunction_ok b fname kvs resp rows hlk hbind hrun hres]
  rfl

/-- Witness for C5: the spec's `GetOrders` example yields the two records
verbatim. -/
theorem c5_function_path_results_verbatim_witness :
    (execute opOrders stubBackend).1 = Except.ok (some ordersRows) :=
  c5_function_path_results_verbatim opOrders stubBackend fnGetOrders none
    [("year", PyVal.vInt 2023)] [("results", ordersRows)] ordersRows
    rfl rfl rfl rfl rfl rfl rfl rfl rfl rfl

/-- The outcome of `executeCore` ignores the `entity` field entirely when
`function` holds a string. -/
theorem executeCore_function_entity_irrel (b : Backend) (fname : String)
    (hh : Option HookObj) (cid su e1 e2 pr : Option String) (ps : Params) :
    (executeCore ⟨hh, cid, su, some (PyVal.vStr fname), e1, pr, ps⟩ b).1 =
      (executeCore ⟨hh, cid, su, some (PyVal.vStr fname), e2, pr, ps⟩ b).1 := by
  unfold executeCore
  by_cases h1 : hookTruthy hh = false
  · simp [h1]
  · cases hP : b.parseUrlOk with
    | error e => simp [h1, hP]
    | ok u =>
      cases u
      cases hh with
      | none => simp [hookTruthy] at h1
      | some ho =>
        cases ho with
        | httpHook c =>
          cases hG : b.getConn c with
          | error e => simp [h1, hookTruthy, hP, hG]
          | ok u2 =>
            cases u2
            cases hC : b.mkClient with
            | error e => simp [h1, hookTruthy, hP, hG, hC]
            | ok u3 =>
              cases u3
              simp only [h1, hookTruthy, hP, hG, hC]
              rw [runBranch_function
                    ⟨some (HookObj.httpHook c), cid, su, some (PyVal.vStr fname),
                     e1, pr, ps⟩ b fname rfl,
                  runBranch_function
                    ⟨some (HookObj.httpHook c), cid, su, some (PyVal.vStr fname),
                     e2, pr, ps⟩ b fname rfl]
              simp
        | otherTruthy t => simp [h1, hookTruthy, hP]
        | otherFalsy t => simp [hookTruthy] at h1

/-- C6: whenever `function` holds a string, the outcome is independent of
`entity` (the entity path is never entered), and under a working transport
the outcome is exactly the function path's. -/
theorem c6_function_priority_entity_ignored
    (b : Backend) (fname : String) (hh : Option HookObj)
    (cid su e1 e2 pr : Option String) (ps : Params) :
    (execute ⟨hh, cid, su, some (PyVal.vStr fname), e1, pr, ps⟩ b).1 =
      (execute ⟨hh, cid, su, some (PyVal.vStr fname), e2, pr, ps⟩ b).1 ∧
    (∀ c : Option String,
      resolvedHook hh cid = some (HookObj.httpHook c) →
      b.parseUrlOk = Except.ok () → b.getConn c = Except.ok () →
      b.mkClient = Except.ok () →
      (execute ⟨hh, cid, su, some (PyVal.vStr fname), e1, pr, ps⟩ b).1 =
        (execFunction b fname ps).map some) := by
  constructor
  · unfold execute
    rw [resolveHook_eq_mk, resolveHook_eq_mk]
    exact executeCore_function_entity_irrel b fname (resolvedHook hh cid)
      cid su e1 e2 pr ps
  · intro c hrh hp hg hc
    unfold execute
    rw [resolveHook_eq_mk]
    rw [executeCore_branch _ b c hrh hp hg hc]
    rw [runBranch_function _ b fname rfl]

/-- Witness for C6: with both selectors supplied, the result is the function
path's outcome (`entity` ignored). -/
theorem c6_function_priority_entity_ignored_witness :
    (execute ⟨some (HookObj.httpHook none), none, some urlSvc,
        some (PyVal.vStr fnGetOrders), some entCustomers, none,
        Params.pdict [("year", PyVal.vInt 2023)]⟩ stubBackend).1 =
      (execFunction stubBackend fnGetOrders
        (Params.pdict [("year", PyVal.vInt 2023)])).map some :=
  (c6_function_priority_entity_ignored stubBackend fnGetOrders
      (some (HookObj.httpHook none)) none (some urlSvc) (some entCustomers)
      none none (Params.pdict [("year", PyVal.vInt 2023)])).2 none rfl rfl rfl rfl

set_option maxRecDepth 8192 in
/-- Counterexample for C8: with a wrong-typed truthy hook object and no
connection identifier (so no usable transport at all), `execute` does not
raise the transport-unavailable error: it blunders on and surfaces the
attribute error of the base-url assignment, wrapped with step label
`None`. -/
theorem c8_counterexample_invalid_hook_no_conn :
    (execute opBadHook stubBackend).1 = Except.error (wrapMsg none msgBaseUrlAttr) ∧
    ¬ noTransportMsg.data <:+: (wrapMsg none msgBaseUrlAttr).data ∧
    ¬ stepHttpSession.data <:+: (wrapMsg none msgBaseUrlAttr).data := by
  refine ⟨rfl, by decide, by decide⟩

/-- C8 as amended: the transport-unavailable error is raised — before any
collaborator is consulted, the backend being arbitrary — exactly when the
connection identifier is falsy and the (unreplaced) hook is falsy; and a
hook that is not a truthy `HttpHook` instance is ignored in favor of a
truthy identifier, which replaces it. -/
theorem c8_amended_transport_check (op : SAPODataOperator) (b : Backend) :
    (truthyOpt op.http_conn_id = false → hookTruthy op.http_hook = false →
      (execute op b).1 =
        Except.error (wrapMsg (some stepHttpSession) noTransportMsg)) ∧
    (truthyOpt op.http_conn_id = true →
      (hookTruthy op.http_hook && hookIsHttpHook op.http_hook) = false →
      (resolveHook op).http_hook = some (HookObj.httpHook op.http_conn_id)) := by
  constructor
  · intro hcf hhf
    unfold execute
    have hr : resolveHook op = op := by
      unfold resolveHook
      simp [hcf]
    rw [hr]
    unfold executeCore
    simp [hhf]
  · intro hct hbad
    unfold resolveHook
    simp [hct, hbad]

/-- Witness for the amended C8: no hook and no identifier yield the wrapped
transport-unavailable error. -/
theorem c8_amended_transport_check_witness :
    (execute ⟨none, none, some urlSvc, some (PyVal.vStr fnGetOrders), none,
        none, Params.pdict []⟩ stubBackend).1 =
      Except.error (wrapMsg (some stepHttpSession) noTransportMsg) :=
  (c8_amended_transport_check ⟨none, none, some urlSvc,
      some (PyVal.vStr fnGetOrders), none, none, Params.pdict []⟩
      stubBackend).1 rfl rfl

/-- C9: a second `execute` on the instance state left by a first one, against
the same backend, produces the same outcome — the two mutations `execute`
can make (hook resolution, property defaulting) are invisible to a repeat
run. -/
theorem c9_execute_twice_identical (op : SAPODataOperator) (b : Backend) :
    (execute (execute op b).2 b).1 = (execute op b).1 := by
  have hsnd : (execute op b).2 = resolveHook op ∨
      ((execute op b).2 =
          { resolveHook op with property := (resolveHook op).entity } ∧
        truthyOpt (resolveHook op).entity = true ∧
        truthyOpt (resolveHook op).property = false) := by
    unfold execute
    rcases executeCore_cases (resolveHook op) b with ⟨st, e, hcase⟩ | hcase
    · rw [hcase]
      exact Or.inl rfl
    · rw [hcase]
      rcases runBranch_snd (resolveHook op) b with hs | ⟨hs, hfs, he, hpf⟩
      · exact Or.inl hs
      · exact Or.inr ⟨hs, he, hpf⟩
  rcases hsnd with hs | ⟨hs, he, hpf⟩
  · rw [hs]
    unfold execute
    rw [resolveHook_idem]
  · rw [hs]
    unfold execute
    rw [resolveHook_update_property, resolveHook_idem]
    exact executeCore_fst_congr _ _ b rfl rfl rfl rfl
      (by unfold pnameOf; simp [he, hpf])

/-- C10: the function path is entered only for a string-valued `function`:
a non-string value falls through to the entity path when `entity` is truthy
and to a `None` result when it is not. -/
theorem c10_function_branch_requires_string
    (op : SAPODataOperator) (b : Backend) (c : Option String)
    (hf : isFnString op.function = false)
    (hhook : (resolveHook op).http_hook = some (HookObj.httpHook c))
    (hp : b.parseUrlOk = Except.ok ())
    (hg : b.getConn c = Except.ok ())
    (hc : b.mkClient = Except.ok ()) :
    (truthyOpt op.entity = true →
      (execute op b).1 =
        (execEntity b (op.entity.getD ("")) (pnameOf op) op.parameters).map some) ∧
    (truthyOpt op.entity = false → (execute op b).1 = Except.ok none) := by
  have hfs' : isFnString (resolveHook op).function = false := by
    rw [resolveHook_function]; exact hf
  constructor
  · intro he
    unfold execute
    rw [executeCore_branch _ b c hhook hp hg hc]
    rw [runBranch_entity _ b hfs' (by rw [resolveHook_entity]; exact he)]
    rw [resolveHook_entity, resolveHook_parameters, pnameOf_resolveHook]
  · intro he
    unfold execute
    rw [executeCore_branch _ b c hhook hp hg hc]
    rw [runBranch_none _ b hfs' (by rw [resolveHook_entity]; exact he)]

/-- Witness for C10: an integer `function` with no entity makes `execute`
return `None`. -/
theorem c10_function_branch_requires_string_witness :
    (execute opIntFn7 stubBackend).1 = Except.ok none :=
  (c10_function_branch_requires_string opIntFn7 stubBackend none
    rfl rfl rfl rfl rfl).2 rfl
